import Mathlib

set_option maxRecDepth 100000

/-!
Shallow embedding of `src/lambda/lambda_function_local.py` (the runtime ETL
handler of the aws-data-pipeline-ads repository) and proofs about the claims
of its specification.

JSON values produced by `json.loads` / consumed by `json.dumps` are modelled
by the inductive type `Value`; Python numbers (int and float alike) are
modelled as exact rationals.  Calls into the Python standard library or into
external services (`hashlib.md5`, `json.dumps`, `datetime.now`, the Secrets
Manager fetch, HTTP requests, `s3.put_object`) are modelled as fields of an
explicit environment record, so every run of the handler corresponds to one
choice of environment.  Python exceptions are modelled with `Except String`:
`.error msg` is a raised exception, and the translation of every
`try/except` block of the source turns `.error` into the handler's recovery
value exactly where the source catches it.
-/

namespace Pipeline

/-- A JSON value, as returned by Python's `json.loads`: null, booleans,
numbers (modelled as exact rationals), strings, arrays and objects
(association lists of string keys, in insertion order). -/
inductive Value where
  | null : Value
  | bool (b : Bool) : Value
  | num (q : ℚ) : Value
  | str (s : String) : Value
  | list (xs : List Value) : Value
  | obj (kvs : List (String × Value)) : Value

/-- First-match association lookup: the model of reading a key of a Python
dict represented as an association list. -/
def lookupKey : List (String × Value) → String → Option Value
  | [], _ => none
  | (k', v) :: rest, k => if k' = k then some v else lookupKey rest k

/-- Python truthiness (`if not config:` and friends): `None`, `False`, zero,
and empty strings/lists/dicts are falsy. -/
def pyFalsy : Value → Bool
  | .null => true
  | .bool b => !b
  | .num q => q = 0
  | .str s => s.isEmpty
  | .list xs => xs.isEmpty
  | .obj kvs => kvs.isEmpty

/-- Python `d.get(k, default)`: total on dicts, raises `AttributeError` on
any other value. -/
def pyGet (v : Value) (k : String) (d : Value) : Except String Value :=
  match v with
  | .obj kvs => .ok ((lookupKey kvs k).getD d)
  | _ => .error "AttributeError: no attribute get"

/-- Python `d[k]` subscript with a string key: returns the value, raises
`KeyError` when the key is missing, `TypeError` on non-dicts. -/
def pySubscript (v : Value) (k : String) : Except String Value :=
  match v with
  | .obj kvs =>
    match lookupKey kvs k with
    | some w => .ok w
    | none => .error ("KeyError: " ++ k)
  | _ => .error "TypeError: value is not subscriptable by string"

/-- Python `k in v` for a string `k`: key membership on dicts, element
membership on lists (a string element equal to `k`), substring test on
strings, `TypeError` otherwise. -/
def pyContains (v : Value) (k : String) : Except String Bool :=
  match v with
  | .obj kvs => .ok (lookupKey kvs k).isSome
  | .list xs =>
    .ok (xs.any fun x => match x with | .str s' => s' = k | _ => false)
  | .str s => .ok ((s.splitOn k).length > 1)
  | _ => .error "TypeError: argument is not iterable"

/-- Python `len(v)`: defined on strings, lists and dicts, `TypeError`
otherwise. -/
def pyLen (v : Value) : Except String Nat :=
  match v with
  | .str s => .ok s.length
  | .list xs => .ok xs.length
  | .obj kvs => .ok kvs.length
  | _ => .error "TypeError: object has no len"

/-- Digits of a numeral, most significant first, to the natural number they
denote. -/
def natOfDigits (cs : List Char) : Nat :=
  cs.foldl (fun acc c => acc * 10 + (c.toNat - '0'.toNat)) 0

/-- Leading and trailing whitespace removed, as Python `str.strip()` does
before `float()` parses a string. -/
def stripChars (cs : List Char) : List Char :=
  ((cs.dropWhile Char.isWhitespace).reverse.dropWhile Char.isWhitespace).reverse

/-- Models Python `float()` applied to a decimal string literal: optional
sign, integer digits, optional fractional part (the exponent and special
forms of `float()` are outside what this program feeds it).  `none` models
the `ValueError` Python raises on any other string. -/
def parseDecimal (s : String) : Option ℚ :=
  let cs := stripChars s.data
  let signAndRest : ℤ × List Char :=
    match cs with
    | '-' :: r => (-1, r)
    | '+' :: r => (1, r)
    | r => (1, r)
  let sign := signAndRest.1
  let rest := signAndRest.2
  let intPart := rest.takeWhile Char.isDigit
  let afterInt := rest.dropWhile Char.isDigit
  match afterInt with
  | [] =>
    if intPart.isEmpty then none
    else some (Rat.divInt (sign * (natOfDigits intPart : ℤ)) 1)
  | '.' :: r2 =>
    let fracPart := r2.takeWhile Char.isDigit
    let afterFrac := r2.dropWhile Char.isDigit
    if afterFrac.isEmpty ∧ ¬(intPart.isEmpty ∧ fracPart.isEmpty) then
      some (Rat.divInt
        (sign * ((natOfDigits intPart : ℤ) * (10 : ℤ) ^ fracPart.length +
          (natOfDigits fracPart : ℤ)))
        ((10 : ℤ) ^ fracPart.length))
    else none
  | _ => none

/-- Python `float(v)`: numbers pass through (ints and floats are both
rationals here), booleans become 0/1, decimal strings are parsed
(`ValueError` otherwise), anything else is a `TypeError`. -/
def pyFloat (v : Value) : Except String ℚ :=
  match v with
  | .num q => .ok q
  | .bool b => .ok (if b then 1 else 0)
  | .str s =>
    match parseDecimal s with
    | some q => .ok q
    | none => .error ("ValueError: could not convert string to float: " ++ s)
  | _ => .error "TypeError: float() argument has a wrong type"

/-- Python `v[:n]` for a fixed non-negative literal `n`: prefix of a string
or list, `TypeError` on anything else. -/
def pyTakeN (v : Value) (n : Nat) : Except String Value :=
  match v with
  | .str s => .ok (.str (s.take n))
  | .list xs => .ok (.list (xs.take n))
  | _ => .error "TypeError: value is not subscriptable"

/-- Python `xs[:limit]` where `limit` is an arbitrary value (the configured
`default_limit`): integer limits slice (negative ones count from the end),
booleans act as 0/1, anything else raises `TypeError`. -/
def pySliceTo (xs : List Value) (limit : Value) : Except String (List Value) :=
  match limit with
  | .num q =>
    if q.den = 1 then
      if 0 ≤ q.num then .ok (xs.take q.num.natAbs)
      else .ok (xs.take (xs.length - q.num.natAbs))
    else .error "TypeError: slice indices must be integers"
  | .bool b => .ok (xs.take (if b then 1 else 0))
  | _ => .error "TypeError: slice indices must be integers"

mutual

/-- Python `str(v)` as used by f-string interpolation.  Faithful on the
scalar values this program ever interpolates; containers are rendered
recursively element by element. -/
def pyStr : Value → String
  | .null => "None"
  | .bool b => if b then "True" else "False"
  | .num q => if q.den = 1 then toString q.num else toString q
  | .str s => s
  | .list xs => "[" ++ String.intercalate ", " (pyStrList xs) ++ "]"
  | .obj kvs =>
    "\x7b" ++ String.intercalate ", " (pyStrObj kvs) ++ "\x7d"

/-- Renders each element of a list value (helper of `pyStr`). -/
def pyStrList : List Value → List String
  | [] => []
  | x :: xs => pyStr x :: pyStrList xs

/-- Renders each entry of an object value (helper of `pyStr`). -/
def pyStrObj : List (String × Value) → List String
  | [] => []
  | (k, v) :: rest => (k ++ ": " ++ pyStr v) :: pyStrObj rest

end

/-- One run's external world: the results of every standard-library or
service call the handler makes.  The clock is frozen for the run (the source
calls `datetime.now()` repeatedly; no claim depends on the sub-run drift).
`extract` gives, per source name and source config, the value
`extract_data_safe` comes back with (the function catches all its own
exceptions, so its outcome is `None` or a list of records — its internal
logic is embedded separately as `extract_data_safe` below). -/
structure PipelineEnv where
  contextId : Option String
  secretFetch : Except String String
  jsonLoads : String → Option Value
  jsonDumpsVal : Value → String
  md5hex : String → String
  nowIso : String
  nowDate : String
  nowStamp : String
  endIso : String
  durationSeconds : ℚ
  extract : String → Value → Option (List Value)
  s3Put : String → Except String Unit

/-- Source lines 341-347: the generic envelope every transformed record
starts from, in Python dict literal order.  `record_id` is the first 12 hex
characters of the MD5 digest of
`f"{source_name}_{idx}_{datetime.now().isoformat()}_{json.dumps(record)}"`. -/
def mkBase (env : PipelineEnv) (source : String) (idx : Nat) (record : Value) :
    List (String × Value) :=
  let uniqueString :=
    source ++ "_" ++ toString idx ++ "_" ++ env.nowIso ++ "_" ++
      env.jsonDumpsVal record
  let recordId := (env.md5hex uniqueString).take 12
  [("record_id", .str recordId),
   ("source", .str source),
   ("extracted_at", .str env.nowIso),
   ("extracted_date", .str env.nowDate),
   ("raw_data", record)]

/-- Source lines 349-381: the per-source nested payload added to the
envelope.  `marketing` builds `product`, `sales` builds `sale`, `crm` builds
`customer` only when the raw record has a `name` key; any other source name
adds nothing.  Field accesses follow the source's evaluation order, so the
first failing access is the exception Python would raise. -/
def sourceFields (source : String) (record : Value) :
    Except String (List (String × Value)) :=
  if source = "marketing" then do
    let idv ← pyGet record "id" .null
    let title ← pyGet record "title" (.str "")
    let priceRaw ← pyGet record "price" (.num 0)
    let price ← pyFloat priceRaw
    let category ← pyGet record "category" (.str "")
    let descRaw ← pyGet record "description" (.str "")
    let desc ← pyTakeN descRaw 200
    let image ← pyGet record "image" (.str "")
    let rating ← pyGet record "rating" (.obj [])
    pure [("product", Value.obj
      [("id", idv), ("title", title), ("price", .num price),
       ("category", category), ("description", desc), ("image", image),
       ("rating", rating)])]
  else if source = "sales" then do
    let idv ← pyGet record "id" .null
    let userId ← pyGet record "userId" .null
    let title ← pyGet record "title" (.str "")
    let bodyRaw ← pyGet record "body" (.str "")
    let body ← pyTakeN bodyRaw 200
    pure [("sale", Value.obj
      [("id", idv), ("user_id", userId), ("title", title), ("body", body)])]
  else if source = "crm" then do
    let hasName ← pyContains record "name"
    if hasName then do
      let name ← pySubscript record "name"
      let first ← pyGet name "first" (.str "")
      let last ← pyGet name "last" (.str "")
      let fullName := pyStr first ++ " " ++ pyStr last
      let email ← pyGet record "email" (.str "")
      let phone ← pyGet record "phone" (.str "")
      let loc ← pyGet record "location" (.obj [])
      let country ← pyGet loc "country" (.str "")
      let city ← pyGet loc "city" (.str "")
      let reg ← pyGet record "registered" (.obj [])
      let regDate ← pyGet reg "date" (.str "")
      pure [("customer", Value.obj
        [("first_name", first), ("last_name", last),
         ("full_name", .str fullName), ("email", email), ("phone", phone),
         ("country", country), ("city", city),
         ("registered_date", regDate)])]
    else pure []
  else pure []

/-- One iteration of the `transform_data` loop (source lines 337-382): the
generic envelope extended with the per-source payload.  An `.error` is an
exception raised out of `transform_data`. -/
def transformOne (env : PipelineEnv) (source : String) (idx : Nat)
    (record : Value) : Except String Value := do
  let rest ← sourceFields source record
  pure (.obj (mkBase env source idx record ++ rest))

/-- The `transform_data` loop from index `idx` on, appending each
transformed record in order. -/
def transformFrom (env : PipelineEnv) (source : String) :
    Nat → List Value → Except String (List Value)
  | _, [] => .ok []
  | idx, r :: rs => do
    let t ← transformOne env source idx r
    let ts ← transformFrom env source (idx + 1) rs
    pure (t :: ts)

/-- Source lines 333-384, `transform_data(source_name, raw_data)`: maps each
raw record to its standardized envelope; `.error` models an exception
escaping to the caller. -/
def transform_data (env : PipelineEnv) (source : String)
    (rawData : List Value) : Except String (List Value) :=
  transformFrom env source 0 rawData

/-- Observer: the value of key `k` when `v` is an object that has it. -/
def getKey (v : Value) (k : String) : Option Value :=
  match v with
  | .obj kvs => lookupKey kvs k
  | _ => none

/-- The optional raw-record keys each known source's projection reads
(for `crm` everything else is only read once `name` is present, so `name`
alone controls the branch). -/
def optKeys : String → List String
  | "marketing" => ["id", "title", "price", "category", "description",
      "image", "rating"]
  | "sales" => ["id", "userId", "title", "body"]
  | "crm" => ["name"]
  | _ => []

/-- A concrete environment used to instantiate theorems on sample runs:
the secret fetch fails (so configuration degrades to the default), no
source yields data, and storage writes succeed. -/
def sampleEnv : PipelineEnv where
  contextId := some "exec-1"
  secretFetch := .error "offline"
  jsonLoads := fun _ => none
  jsonDumpsVal := fun _ => "J"
  md5hex := fun _ => "0123456789abcdef01234567"
  nowIso := "2024-01-01T00:00:00"
  nowDate := "2024-01-01"
  nowStamp := "20240101_000000"
  endIso := "2024-01-01T00:00:01"
  durationSeconds := 1
  extract := fun _ _ => none
  s3Put := fun _ => .ok ()

/-- The 300-character description of the specification's sample marketing
record. -/
def longDesc : String := String.mk (List.replicate 300 'd')

/-- The specification's sample raw marketing record. -/
def c9rec : Value := .obj
  [("id", .num 1), ("title", .str "T"), ("price", .str "9.99"),
   ("category", .str "c"), ("description", .str longDesc),
   ("image", .str "i")]

@[simp] theorem exceptBind_ok {α β ε : Type} (a : α) (f : α → Except ε β) :
    (Except.ok a >>= f) = f a := rfl

@[simp] theorem exceptBind_error {α β ε : Type} (e : ε)
    (f : α → Except ε β) :
    ((Except.error e : Except ε α) >>= f) = Except.error e := rfl

@[simp] theorem exceptPure_eq_ok {α ε : Type} (a : α) :
    (pure a : Except ε α) = Except.ok a := rfl

theorem pyGet_obj_of_none {kvs : List (String × Value)} {k : String}
    (d : Value) (h : lookupKey kvs k = none) :
    pyGet (.obj kvs) k d = .ok d := by
  simp [pyGet, h]

theorem sourceFields_marketing_defaults {kvs : List (String × Value)}
    (h : ∀ k ∈ optKeys "marketing", lookupKey kvs k = none) :
    sourceFields "marketing" (.obj kvs) = .ok [("product", Value.obj
      [("id", .null), ("title", .str ""), ("price", .num 0),
       ("category", .str ""), ("description", .str ""), ("image", .str ""),
       ("rating", .obj [])])] := by
  have hid := h "id" (by simp [optKeys])
  have hti := h "title" (by simp [optKeys])
  have hpr := h "price" (by simp [optKeys])
  have hca := h "category" (by simp [optKeys])
  have hde := h "description" (by simp [optKeys])
  have him := h "image" (by simp [optKeys])
  have hra := h "rating" (by simp [optKeys])
  simp [sourceFields, pyGet, hid, hti, hpr, hca, hde, him, hra, pyFloat,
    pyTakeN]
  rfl

theorem sourceFields_sales_defaults {kvs : List (String × Value)}
    (h : ∀ k ∈ optKeys "sales", lookupKey kvs k = none) :
    sourceFields "sales" (.obj kvs) = .ok [("sale", Value.obj
      [("id", .null), ("user_id", .null), ("title", .str ""),
       ("body", .str "")])] := by
  have hid := h "id" (by simp [optKeys])
  have hus := h "userId" (by simp [optKeys])
  have hti := h "title" (by simp [optKeys])
  have hbo := h "body" (by simp [optKeys])
  simp [sourceFields, pyGet, hid, hus, hti, hbo, pyTakeN]
  rfl

theorem sourceFields_crm_no_name {kvs : List (String × Value)}
    (h : lookupKey kvs "name" = none) :
    sourceFields "crm" (.obj kvs) = .ok [] := by
  simp [sourceFields, pyContains, h]

theorem transformOne_shape {env : PipelineEnv} {s : String} {idx : Nat}
    {r t : Value} (h : transformOne env s idx r = .ok t) :
    ∃ rest, sourceFields s r = .ok rest ∧
      t = .obj (mkBase env s idx r ++ rest) := by
  cases hsf : sourceFields s r with
  | error e => simp [transformOne, hsf] at h
  | ok rest =>
    refine ⟨rest, rfl, ?_⟩
    simp [transformOne, hsf] at h
    exact h.symm

theorem lookupKey_mkBase_append {env : PipelineEnv} {s : String} {idx : Nat}
    {r : Value} (rest : List (String × Value)) :
    lookupKey (mkBase env s idx r ++ rest) "record_id"
        = some (.str ((env.md5hex (s ++ "_" ++ toString idx ++ "_" ++
            env.nowIso ++ "_" ++ env.jsonDumpsVal r)).take 12)) ∧
      lookupKey (mkBase env s idx r ++ rest) "source" = some (.str s) ∧
      lookupKey (mkBase env s idx r ++ rest) "extracted_at"
        = some (.str env.nowIso) ∧
      lookupKey (mkBase env s idx r ++ rest) "extracted_date"
        = some (.str env.nowDate) ∧
      lookupKey (mkBase env s idx r ++ rest) "raw_data" = some r := by
  refine ⟨rfl, ?_, ?_, ?_, ?_⟩ <;> simp [mkBase, lookupKey]

theorem transformOne_ok_of_sourceFields {env : PipelineEnv} {s : String}
    {idx : Nat} {r : Value} {rest : List (String × Value)}
    (hsf : sourceFields s r = .ok rest) :
    transformOne env s idx r = .ok (.obj (mkBase env s idx r ++ rest)) := by
  simp [transformOne, hsf]

theorem transformFrom_cons_ok {env : PipelineEnv} {s : String} {idx : Nat}
    {r : Value} {rs : List Value} {t : Value} {out' : List Value}
    (h1 : transformOne env s idx r = .ok t)
    (h2 : transformFrom env s (idx + 1) rs = .ok out') :
    transformFrom env s idx (r :: rs) = .ok (t :: out') := by
  simp [transformFrom, h1, h2]

theorem lookupKey_mkBase_customer (env : PipelineEnv) (s : String)
    (idx : Nat) (r : Value) :
    lookupKey (mkBase env s idx r) "customer" = none := by
  simp [mkBase, lookupKey]

theorem transformFrom_spec (env : PipelineEnv) (s : String) :
    ∀ (rawData : List Value) (idx : Nat) (out : List Value),
    transformFrom env s idx rawData = .ok out →
    out.length = rawData.length ∧
    ∀ (i : Nat) (hi : i < out.length) (hr : i < rawData.length),
      (getKey (out.get ⟨i, hi⟩) "record_id").isSome = true ∧
      getKey (out.get ⟨i, hi⟩) "source" = some (.str s) ∧
      (getKey (out.get ⟨i, hi⟩) "extracted_at").isSome = true ∧
      (getKey (out.get ⟨i, hi⟩) "extracted_date").isSome = true ∧
      getKey (out.get ⟨i, hi⟩) "raw_data" = some (rawData.get ⟨i, hr⟩) := by
  intro rawData
  induction rawData with
  | nil =>
    intro idx out h
    simp only [transformFrom] at h
    cases h
    exact ⟨rfl, by intro i hi; simp at hi⟩
  | cons r rs ih =>
    intro idx out h
    simp only [transformFrom] at h
    cases h1 : transformOne env s idx r with
    | error e => rw [h1] at h; simp at h
    | ok t =>
      rw [h1] at h
      simp only [exceptBind_ok] at h
      cases h2 : transformFrom env s (idx + 1) rs with
      | error e => rw [h2] at h; simp at h
      | ok ts =>
        rw [h2] at h
        simp only [exceptBind_ok, exceptPure_eq_ok] at h
        cases h
        have hrest := ih (idx + 1) ts h2
        refine ⟨by simp [hrest.1], ?_⟩
        intro i hi hr
        cases i with
        | zero =>
          obtain ⟨rest, _, ht⟩ := transformOne_shape h1
          subst ht
          have hb := @lookupKey_mkBase_append env s idx r rest
          simp only [List.get, getKey]
          exact ⟨by rw [hb.1]; rfl, hb.2.1, by rw [hb.2.2.1]; rfl,
            by rw [hb.2.2.2.1]; rfl, hb.2.2.2.2⟩
        | succ n =>
          have hn : n < ts.length := by simpa using hi
          have hn' : n < rs.length := by simpa using hr
          exact hrest.2 n hn hn'

/-- C10: whenever `transform_data` returns (rather than raising), the output
list has exactly the input's length and every output record carries the
generic envelope: `record_id`, `source` (the given source name),
`extracted_at`, `extracted_date` and `raw_data` (the corresponding input
record, unchanged). -/
theorem c10_transform_envelope (env : PipelineEnv) (s : String)
    (rawData out : List Value) (h : transform_data env s rawData = .ok out) :
    out.length = rawData.length ∧
    ∀ (i : Nat) (hi : i < out.length) (hr : i < rawData.length),
      (getKey (out.get ⟨i, hi⟩) "record_id").isSome = true ∧
      getKey (out.get ⟨i, hi⟩) "source" = some (.str s) ∧
      (getKey (out.get ⟨i, hi⟩) "extracted_at").isSome = true ∧
      (getKey (out.get ⟨i, hi⟩) "extracted_date").isSome = true ∧
      getKey (out.get ⟨i, hi⟩) "raw_data" = some (rawData.get ⟨i, hr⟩) :=
  transformFrom_spec env s rawData 0 out h

/-- C10, counterexample to the unconditional claim: on the `marketing`
source a raw record whose `price` is the non-numeric string `"abc"` makes
`transform_data` raise a `ValueError` (Python `float('abc')`), so it does
not return a list at all. -/
theorem c10_counterexample :
    transform_data sampleEnv "marketing" [.obj [("price", .str "abc")]]
      = .error "ValueError: could not convert string to float: abc" := rfl

/-- The output of `transform_data` on one empty `sales` record under
`sampleEnv`, used by the C10 witness. -/
def c10wOut : List Value :=
  [Value.obj
    [("record_id", .str "0123456789ab"), ("source", .str "sales"),
     ("extracted_at", .str "2024-01-01T00:00:00"),
     ("extracted_date", .str "2024-01-01"),
     ("raw_data", .obj []),
     ("sale", .obj
       [("id", .null), ("user_id", .null), ("title", .str ""),
        ("body", .str "")])]]

theorem c10_witness :
    c10wOut.length = ([Value.obj ([] : List (String × Value))] :
      List Value).length ∧
    getKey (c10wOut.get ⟨0, by simp [c10wOut]⟩) "raw_data"
      = some (.obj ([] : List (String × Value))) := by
  have h := c10_transform_envelope sampleEnv "sales" [Value.obj []] c10wOut
    rfl
  exact ⟨h.1, (h.2 0 (by simp [c10wOut]) (by simp)).2.2.2.2⟩

theorem transformFrom_defaults (env : PipelineEnv) (s : String)
    (hs : s = "marketing" ∨ s = "sales" ∨ s = "crm") :
    ∀ (rawData : List Value) (idx : Nat),
    (∀ r ∈ rawData, ∃ kvs, r = Value.obj kvs ∧
      ∀ k ∈ optKeys s, lookupKey kvs k = none) →
    ∃ out, transformFrom env s idx rawData = .ok out ∧
      (s = "crm" → ∀ t ∈ out, getKey t "customer" = none) := by
  intro rawData
  induction rawData with
  | nil =>
    intro idx _
    exact ⟨[], rfl, by intro _ t ht; simp at ht⟩
  | cons r rs ih =>
    intro idx hrec
    obtain ⟨kvs, rfl, hkeys⟩ := hrec r (by simp)
    obtain ⟨out', hout', hcust'⟩ := ih (idx + 1)
      (fun r' hr' => hrec r' (by simp [hr']))
    rcases hs with h | h | h <;> subst h
    · have hsf := sourceFields_marketing_defaults hkeys
      exact ⟨_, transformFrom_cons_ok (transformOne_ok_of_sourceFields hsf)
        hout', by intro hcrm; simp at hcrm⟩
    · have hsf := sourceFields_sales_defaults hkeys
      exact ⟨_, transformFrom_cons_ok (transformOne_ok_of_sourceFields hsf)
        hout', by intro hcrm; simp at hcrm⟩
    · have hname : lookupKey kvs "name" = none :=
        hkeys "name" (by simp [optKeys])
      have hsf := sourceFields_crm_no_name hname
      refine ⟨_, transformFrom_cons_ok (transformOne_ok_of_sourceFields hsf)
        hout', ?_⟩
      intro _ t ht
      rcases List.mem_cons.mp ht with h | h
      · subst h
        simp [getKey, lookupKey_mkBase_customer]
      · exact hcust' rfl t h

/-- C6: for each of the three known source names, `transform_data` returns
normally (never raises) on any list of raw records that are JSON objects
from which the optional fields the projection reads are absent; moreover for
`crm`, when the raw record has no `name` key the transformed record has no
`customer` key at all. -/
theorem c6_transform_total_on_missing_fields (env : PipelineEnv) (s : String)
    (rawData : List Value)
    (hs : s = "marketing" ∨ s = "sales" ∨ s = "crm")
    (hrec : ∀ r ∈ rawData, ∃ kvs, r = Value.obj kvs ∧
      ∀ k ∈ optKeys s, lookupKey kvs k = none) :
    ∃ out, transform_data env s rawData = .ok out ∧
      (s = "crm" → ∀ t ∈ out, getKey t "customer" = none) :=
  transformFrom_defaults env s hs rawData 0 hrec

theorem c6_witness :
    ∃ out, transform_data sampleEnv "crm"
        [Value.obj [("email", Value.str "x")]] = .ok out ∧
      ("crm" = "crm" → ∀ t ∈ out, getKey t "customer" = none) :=
  c6_transform_total_on_missing_fields sampleEnv "crm"
    [Value.obj [("email", Value.str "x")]]
    (Or.inr (Or.inr rfl))
    (by
      intro r hr
      rw [List.mem_singleton] at hr
      subst hr
      refine ⟨_, rfl, ?_⟩
      intro k hk
      simp only [optKeys, List.mem_singleton] at hk
      subst hk
      rfl)

/-- The product payload `transform_data` computes for the specification's
sample marketing record. -/
def c9prod : Value := .obj
  [("id", .num 1), ("title", .str "T"),
   ("price", .num (Rat.divInt 999 100)), ("category", .str "c"),
   ("description", .str (String.mk (List.replicate 200 'd'))),
   ("image", .str "i"), ("rating", .obj [])]

/-- C9: on the sample raw marketing record with `price` the string
`"9.99"` and a 300-character description, `transform_data` produces a
`product` whose `description` has length at most 200 and whose `price` is
the float 9.99 (exactly, as a rational). -/
theorem c9_marketing_sample (env : PipelineEnv) :
    ∃ t p d, transform_data env "marketing" [c9rec] = .ok [t] ∧
      getKey t "product" = some p ∧
      getKey p "description" = some (.str d) ∧ d.length ≤ 200 ∧
      getKey p "price" = some (.num (9.99 : ℚ)) := by
  have hq : (9.99 : ℚ) = Rat.divInt 999 100 := by
    rw [Rat.divInt_eq_div]; norm_num
  refine ⟨Value.obj (mkBase env "marketing" 0 c9rec ++ [("product", c9prod)]),
    c9prod, String.mk (List.replicate 200 'd'), rfl, rfl, rfl, by decide, ?_⟩
  rw [hq]
  rfl

/-- Source lines 162-180: the hardcoded default configuration
`get_configuration` falls back to. -/
def defaultConfig : Value := .obj
  [("data_sources", .obj
    [("marketing", .obj
      [("name", .str "FakeStore API"),
       ("url", .str "https://fakestoreapi.com/products"),
       ("default_limit", .num 10)]),
     ("sales", .obj
      [("name", .str "JSONPlaceholder"),
       ("url", .str "https://jsonplaceholder.typicode.com/posts"),
       ("default_limit", .num 10)]),
     ("crm", .obj
      [("name", .str "RandomUser API"),
       ("url", .str "https://randomuser.me/api/"),
       ("default_limit", .num 10)])])]

/-- Source lines 151-180, `get_configuration()`: tries the secret fetch and
`json.loads`; on any exception (fetch failure or unparsable secret) it
returns the hardcoded default.  Total: in this version of the code the
function can neither raise nor return `None`. -/
def get_configuration (env : PipelineEnv) : Value :=
  match env.secretFetch with
  | .ok s =>
    match env.jsonLoads s with
    | some v => v
    | none => defaultConfig
  | .error _ => defaultConfig

/-- The mutable `results` dict the handler builds (source lines 58-68),
as a record.  `end_time` and `duration_seconds` start as `None`. -/
structure ExecutionResult where
  execution_id : String
  start_time : String
  end_time : Value
  duration_seconds : Value
  success : Bool
  sources_processed : List String
  total_records : Nat
  errors : List String
  files_created : List String

/-- The initial `results` dict: `execution_id` is the request id of the
context, or `'local-test'` without one. -/
def initResults (env : PipelineEnv) : ExecutionResult where
  execution_id := env.contextId.getD "local-test"
  start_time := env.nowIso
  end_time := .null
  duration_seconds := .null
  success := true
  sources_processed := []
  total_records := 0
  errors := []
  files_created := []

/-- Source lines 387-411, `load_to_s3`: writes one object under a
date-partitioned key and returns the key; `.error` is a raised
`put_object` failure. -/
def load_to_s3 (env : PipelineEnv) (source : String) (data : List Value) :
    Except String String :=
  let key := "data/" ++ source ++ "/date=" ++ env.nowDate ++ "/" ++ source ++
    "_" ++ env.nowStamp ++ ".json"
  match env.s3Put key with
  | .ok _ => .ok key
  | .error e => .error e

/-- The key `save_execution_summary` writes to, determined by the run date
and the execution id. -/
def summaryKey (env : PipelineEnv) (r : ExecutionResult) : String :=
  "metadata/executions/date=" ++ env.nowDate ++ "/execution_" ++
    r.execution_id ++ ".json"

/-- Source lines 414-446, `save_execution_summary`: builds the summary dict
(whose only fallible step is `config.get('data_sources', {})`, an
`AttributeError` on a non-dict config), writes it, and returns the key. -/
def save_execution_summary (env : PipelineEnv) (r : ExecutionResult)
    (config : Value) : Except String String := do
  let _ ← pyGet config "data_sources" (.obj [])
  let key := summaryKey env r
  match env.s3Put key with
  | .ok _ => .ok key
  | .error e => .error e

/-- The configuration accesses of source lines 79 and 84 before the loop:
`len(config['data_sources'])` in the f-string log, then
`config['data_sources'].items()`.  Yields the list of (source name, source
config) pairs or the first exception those accesses raise. -/
def dataSourcesOf (config : Value) : Except String (List (String × Value)) :=
  match config with
  | .obj kvs =>
    match lookupKey kvs "data_sources" with
    | some ds =>
      match pyLen ds with
      | .error e => .error e
      | .ok _ =>
        match ds with
        | .obj items => .ok items
        | _ => .error "AttributeError: object has no attribute items"
    | none => .error "KeyError: data_sources"
  | _ => .error "TypeError: config is not subscriptable"

/-- One iteration of the source loop (lines 84-111): extraction outcome
`None` or an empty list just logs; otherwise transform and load, updating
`sources_processed`, `total_records` and `files_created` on success; any
exception from the iteration body is caught and appended to `errors`, and
the loop continues. -/
def processOne (env : PipelineEnv) (s : String) (cfg : Value)
    (r : ExecutionResult) : ExecutionResult :=
  match env.extract s cfg with
  | none => r
  | some rawList =>
    if rawList.isEmpty then r
    else
      match (do
        let t ← transform_data env s rawList
        let fp ← load_to_s3 env s t
        pure (t, fp) : Except String (List Value × String)) with
      | .ok (t, fp) =>
        { r with
          sources_processed := r.sources_processed ++ [s],
          total_records := r.total_records + t.length,
          files_created := r.files_created ++ [fp] }
      | .error e =>
        { r with errors := r.errors ++ ["Error processing " ++ s ++ ": " ++ e] }

/-- The source loop over the configured data sources, in order. -/
def processLoop (env : PipelineEnv) :
    List (String × Value) → ExecutionResult → ExecutionResult
  | [], r => r
  | (s, cfg) :: rest, r => processLoop env rest (processOne env s cfg r)

/-- The body of the handler's outer `try` (source lines 70-116): load the
configuration, raise if it is falsy, read its data sources, run the loop,
save the summary.  The second component is the exception the `try` body
raised, if any; the first is the `results` value at that moment (Python
mutates `results` in place, so partial updates survive the exception). -/
def handlerTry (env : PipelineEnv) (r0 : ExecutionResult) :
    ExecutionResult × Option String :=
  let config := get_configuration env
  if pyFalsy config then (r0, some "Failed to load configuration")
  else
    match dataSourcesOf config with
    | .error e => (r0, some e)
    | .ok ds =>
      let r1 := processLoop env ds r0
      match save_execution_summary env r1 config with
      | .ok key =>
        ({ r1 with files_created := r1.files_created ++ [key] }, none)
      | .error e => (r1, some e)

/-- Source lines 118-128: the outer `except` marks the run failed and
appends the fatal error; then `end_time` and `duration_seconds` are set. -/
def finalizeResults (env : PipelineEnv)
    (p : ExecutionResult × Option String) : ExecutionResult :=
  let r := match p with
    | (r, none) => r
    | (r, some e) =>
      { r with success := false, errors := r.errors ++ ["Fatal error: " ++ e] }
  { r with end_time := .str env.endIso,
           duration_seconds := .num env.durationSeconds }

/-- The `results` value `lambda_handler` finishes with (and serializes into
the response body when it returns). -/
def run_results (env : PipelineEnv) : ExecutionResult :=
  finalizeResults env (handlerTry env (initResults env))

/-- The `results` dict as the JSON value `json.dumps` receives, in Python
insertion order. -/
def resultToValue (r : ExecutionResult) : Value := .obj
  [("execution_id", .str r.execution_id),
   ("start_time", .str r.start_time),
   ("end_time", r.end_time),
   ("duration_seconds", r.duration_seconds),
   ("success", .bool r.success),
   ("sources_processed", .list (r.sources_processed.map .str)),
   ("total_records", .num (r.total_records : ℚ)),
   ("errors", .list (r.errors.map .str)),
   ("files_created", .list (r.files_created.map .str))]

/-- Source line 135, evaluated after the `try/except`:
`len(config['data_sources'] if config else {})` inside the final
summary log.  When the configuration is truthy but has no `data_sources`
key (or a value `len` rejects), this raises outside every handler. -/
def finalLogCheck (config : Value) : Except String Unit :=
  if pyFalsy config then .ok ()
  else
    match config with
    | .obj kvs =>
      match lookupKey kvs "data_sources" with
      | some ds =>
        match pyLen ds with
        | .ok _ => .ok ()
        | .error e => .error e
      | none => .error "KeyError: data_sources"
    | _ => .error "TypeError: config is not subscriptable"

/-- The response envelope of source lines 142-148. -/
structure Response where
  statusCode : Nat
  body : String
  headers : List (String × String)

/-- Source lines 44-148, `lambda_handler(event, context)`: runs the
pipeline, then the final summary logging (which can raise, modelled by
`.error`), and returns the envelope with status 200 on success and 500
otherwise, the serialized results as body, and the JSON content-type
header.  The trigger `event` is never read. -/
def lambda_handler (event : Value) (env : PipelineEnv) :
    Except String Response :=
  let r := run_results env
  match finalLogCheck (get_configuration env) with
  | .error e => .error e
  | .ok _ =>
    .ok { statusCode := if r.success then 200 else 500,
          body := env.jsonDumpsVal (resultToValue r),
          headers := [("Content-Type", "application/json")] }

/-- True when the configuration phase before the source loop (the falsy
check of line 75 and the `data_sources` accesses of lines 79/84) fails. -/
def configPhaseFails (env : PipelineEnv) : Bool :=
  pyFalsy (get_configuration env) ||
    match dataSourcesOf (get_configuration env) with
    | .ok _ => false
    | .error _ => true

theorem processOne_extract_none {env : PipelineEnv} {s : String}
    {cfg : Value} {r : ExecutionResult} (h : env.extract s cfg = none) :
    processOne env s cfg r = r := by
  unfold processOne
  rw [h]

theorem processOne_execution_id (env : PipelineEnv) (s : String)
    (cfg : Value) (r : ExecutionResult) :
    (processOne env s cfg r).execution_id = r.execution_id := by
  unfold processOne
  split
  · rfl
  · split
    · rfl
    · split <;> rfl

theorem processOne_success (env : PipelineEnv) (s : String) (cfg : Value)
    (r : ExecutionResult) :
    (processOne env s cfg r).success = r.success := by
  unfold processOne
  split
  · rfl
  · split
    · rfl
    · split <;> rfl

theorem processOne_sources (env : PipelineEnv) (s : String) (cfg : Value)
    (r : ExecutionResult) :
    (processOne env s cfg r).sources_processed = r.sources_processed ∨
    (processOne env s cfg r).sources_processed
      = r.sources_processed ++ [s] := by
  unfold processOne
  split
  · exact Or.inl rfl
  · split
    · exact Or.inl rfl
    · split
      · exact Or.inr rfl
      · exact Or.inl rfl

theorem processLoop_execution_id (env : PipelineEnv) :
    ∀ (L : List (String × Value)) (r : ExecutionResult),
    (processLoop env L r).execution_id = r.execution_id := by
  intro L
  induction L with
  | nil => intro r; rfl
  | cons p rest ih =>
    intro r
    cases p with
    | mk s cfg =>
      exact (ih (processOne env s cfg r)).trans
        (processOne_execution_id env s cfg r)

theorem processLoop_success (env : PipelineEnv) :
    ∀ (L : List (String × Value)) (r : ExecutionResult),
    (processLoop env L r).success = r.success := by
  intro L
  induction L with
  | nil => intro r; rfl
  | cons p rest ih =>
    intro r
    cases p with
    | mk s cfg =>
      exact (ih (processOne env s cfg r)).trans
        (processOne_success env s cfg r)

theorem processLoop_not_mem (env : PipelineEnv) (sname : String) :
    ∀ (L : List (String × Value)) (r : ExecutionResult),
    (∀ p ∈ L, p.1 ≠ sname) → sname ∉ r.sources_processed →
    sname ∉ (processLoop env L r).sources_processed := by
  intro L
  induction L with
  | nil => intro r _ hr; exact hr
  | cons p rest ih =>
    intro r hall hr
    cases p with
    | mk s cfg =>
      apply ih (processOne env s cfg r)
        (fun q hq => hall q (List.mem_cons_of_mem _ hq))
      rcases processOne_sources env s cfg r with h | h
      · rw [h]; exact hr
      · rw [h]
        intro hmem
        rcases List.mem_append.mp hmem with h1 | h1
        · exact hr h1
        · have hsn : sname = s := by simpa using h1
          exact absurd hsn.symm (hall (s, cfg) (by simp))

theorem finalizeResults_sources (env : PipelineEnv)
    (p : ExecutionResult × Option String) :
    (finalizeResults env p).sources_processed = p.1.sources_processed := by
  rcases p with ⟨r, o⟩
  cases o <;> rfl

/-- The key the per-run summary is written to (it depends only on the run
date and execution id, which the loop never changes). -/
def summaryKeyOf (env : PipelineEnv) : String :=
  summaryKey env (initResults env)

/-- C2 (amended): the success flag of the returned result is false exactly
when a fatal failure escaped the per-source handler — either the
configuration phase before the source loop failed (falsy config, or the
`data_sources` accesses raised), or writing the execution summary after the
loop failed.  Per-source failures alone never make `success` false. -/
theorem c2_success_false_iff_fatal (env : PipelineEnv) :
    (run_results env).success = false ↔
      (configPhaseFails env = true ∨
        (env.s3Put (summaryKeyOf env)).isOk = false) := by
  unfold run_results handlerTry configPhaseFails
  cases hf : pyFalsy (get_configuration env) with
  | true => simp [hf, finalizeResults]
  | false =>
    simp only [hf, Bool.false_eq_true, if_false, Bool.false_or]
    cases hds : dataSourcesOf (get_configuration env) with
    | error e => simp [hds, finalizeResults]
    | ok ds =>
      simp only [hds]
      cases hc : get_configuration env with
      | obj kvs =>
        have hkey : summaryKey env (processLoop env ds (initResults env))
            = summaryKeyOf env := by
          unfold summaryKey summaryKeyOf summaryKey
          rw [processLoop_execution_id]
        have hsucc : (processLoop env ds (initResults env)).success = true :=
          processLoop_success env ds (initResults env)
        cases hput : env.s3Put (summaryKeyOf env) with
        | ok u =>
          cases u
          simp [save_execution_summary, pyGet, hkey, hput, finalizeResults,
            hsucc, Except.isOk, Except.toBool]
        | error e =>
          simp [save_execution_summary, pyGet, hkey, hput, finalizeResults,
            Except.isOk, Except.toBool]
      | null => rw [hc] at hds; simp [dataSourcesOf] at hds
      | bool b => rw [hc] at hds; simp [dataSourcesOf] at hds
      | num q => rw [hc] at hds; simp [dataSourcesOf] at hds
      | str st => rw [hc] at hds; simp [dataSourcesOf] at hds
      | list xs => rw [hc] at hds; simp [dataSourcesOf] at hds

/-- An environment whose secret fetch fails (degrading to the default
configuration), whose extractions all come back `None`, and whose storage
writes are denied. -/
def envNoS3 : PipelineEnv :=
  { sampleEnv with s3Put := fun _ => .error "AccessDenied" }

/-- C2, counterexample to the claim as stated: in this run the
configuration phase succeeds (the default configuration loads), yet the
returned result has `success = false`, because saving the execution summary
after the source loop raised and the outer handler caught it.  So a
configuration-loading failure is not the only path to `success = false`. -/
theorem c2_counterexample :
    (run_results envNoS3).success = false ∧
      configPhaseFails envNoS3 = false ∧
      (run_results envNoS3).errors = ["Fatal error: AccessDenied"] :=
  ⟨rfl, rfl, rfl⟩

/-- C7: whenever `lambda_handler` returns an envelope, its status code is
200 exactly when the execution result's success flag is true and 500
exactly when it is false. -/
theorem c7_status_matches_success (event : Value) (env : PipelineEnv)
    (resp : Response) (h : lambda_handler event env = .ok resp) :
    (resp.statusCode = 200 ↔ (run_results env).success = true) ∧
    (resp.statusCode = 500 ↔ (run_results env).success = false) := by
  unfold lambda_handler at h
  cases hf : finalLogCheck (get_configuration env) with
  | error e => rw [hf] at h; cases h
  | ok u =>
    cases u
    rw [hf] at h
    cases h
    cases hs : (run_results env).success <;> simp [hs]

/-- The envelope `lambda_handler` returns under `sampleEnv`. -/
def respOk : Response where
  statusCode := 200
  body := "J"
  headers := [("Content-Type", "application/json")]

theorem c7_witness :
    (respOk.statusCode = 200 ↔ (run_results sampleEnv).success = true) ∧
    (respOk.statusCode = 500 ↔ (run_results sampleEnv).success = false) :=
  c7_status_matches_success .null sampleEnv respOk rfl

/-- C8: on any failure of the secret retrieval — the fetch raising, or the
secret string failing to parse as JSON — `get_configuration` returns the
built-in default configuration, whose `data_sources` are exactly the three
hardcoded sources `marketing`, `sales` and `crm`.  (In the embedding the
function is total, so it can neither raise nor return `None`.) -/
theorem c8_degrade_to_defaults (env : PipelineEnv)
    (h : (∃ e, env.secretFetch = .error e) ∨
      (∃ s, env.secretFetch = .ok s ∧ env.jsonLoads s = none)) :
    get_configuration env = defaultConfig ∧
    ∃ ds, dataSourcesOf defaultConfig = .ok ds ∧
      ds.map Prod.fst = ["marketing", "sales", "crm"] := by
  constructor
  · unfold get_configuration
    rcases h with ⟨e, he⟩ | ⟨st, hs, hj⟩
    · rw [he]
    · simp [hs, hj]
  · exact ⟨_, rfl, rfl⟩

theorem c8_witness :
    get_configuration sampleEnv = defaultConfig ∧
    ∃ ds, dataSourcesOf defaultConfig = .ok ds ∧
      ds.map Prod.fst = ["marketing", "sales", "crm"] :=
  c8_degrade_to_defaults sampleEnv (Or.inl ⟨"offline", rfl⟩)

/-- An environment whose secret holds the JSON text `{"foo": 1}`: a
truthy configuration object without a `data_sources` key. -/
def envBadConfig : PipelineEnv :=
  { sampleEnv with
    secretFetch := .ok "\x7b\"foo\": 1\x7d",
    jsonLoads := fun st =>
      if st = "\x7b\"foo\": 1\x7d" then some (.obj [("foo", .num 1)])
      else none }

/-- C3, the code bug: with a truthy configuration lacking `data_sources`,
the final summary log (source line 135) evaluates
`len(config['data_sources'] if config else {})` outside every
`try/except`, so `lambda_handler` raises a `KeyError` instead of returning
the 500 envelope the claim promises. -/
theorem c3_handler_raises :
    lambda_handler .null envBadConfig = .error "KeyError: data_sources" :=
  rfl

theorem processLoop_filter (env : PipelineEnv) (sname : String)
    (h : ∀ cfg, env.extract sname cfg = none) :
    ∀ (L : List (String × Value)) (r : ExecutionResult),
    processLoop env L r
      = processLoop env (L.filter fun p => !(p.1 == sname)) r := by
  intro L
  induction L with
  | nil => intro r; rfl
  | cons p rest ih =>
    intro r
    cases p with
    | mk s cfg =>
      by_cases hs : s = sname
      · subst hs
        calc processLoop env ((s, cfg) :: rest) r
            = processLoop env rest (processOne env s cfg r) := rfl
          _ = processLoop env rest r := by
                rw [processOne_extract_none (h cfg)]
          _ = processLoop env (rest.filter fun p => !(p.1 == s)) r := ih r
          _ = processLoop env
                (((s, cfg) :: rest).filter fun p => !(p.1 == s)) r := by
                simp [List.filter_cons]
      · have hkeep : (((s, cfg) :: rest).filter fun p => !(p.1 == sname))
            = (s, cfg) :: (rest.filter fun p => !(p.1 == sname)) := by
          simp [List.filter_cons, hs]
        calc processLoop env ((s, cfg) :: rest) r
            = processLoop env rest (processOne env s cfg r) := rfl
          _ = processLoop env (rest.filter fun p => !(p.1 == sname))
                (processOne env s cfg r) := ih _
          _ = processLoop env
                (((s, cfg) :: rest).filter fun p => !(p.1 == sname)) r := by
                rw [hkeep]
                rfl

/-- The handler computation on the same environment with one source name
dropped from the configured data sources — the reference point for "that
source contributes nothing to the run". -/
def handlerTryWithout (env : PipelineEnv) (sname : String)
    (r0 : ExecutionResult) : ExecutionResult × Option String :=
  let config := get_configuration env
  if pyFalsy config then (r0, some "Failed to load configuration")
  else
    match dataSourcesOf config with
    | .error e => (r0, some e)
    | .ok ds =>
      let r1 := processLoop env (ds.filter fun p => !(p.1 == sname)) r0
      match save_execution_summary env r1 config with
      | .ok key =>
        ({ r1 with files_created := r1.files_created ++ [key] }, none)
      | .error e => (r1, some e)

/-- The execution result of the run with one source name dropped from the
configured data sources. -/
def run_resultsWithout (env : PipelineEnv) (sname : String) :
    ExecutionResult :=
  finalizeResults env (handlerTryWithout env sname (initResults env))

/-- C1 (amended): a source whose extraction returns `None` contributes
nothing at all to the run — the returned result (total_records, errors,
files, everything) is exactly that of the run without the source configured,
and the source's name is not in `sources_processed`.  In particular it
contributes zero to `total_records` and, contrary to the claim as stated,
no entry is appended to `errors` (the code only logs a warning). -/
theorem c1_extraction_none_contributes_nothing (env : PipelineEnv)
    (sname : String) (h : ∀ cfg, env.extract sname cfg = none) :
    run_results env = run_resultsWithout env sname ∧
    sname ∉ (run_results env).sources_processed := by
  have heq : run_results env = run_resultsWithout env sname := by
    unfold run_results run_resultsWithout handlerTry handlerTryWithout
    cases hf : pyFalsy (get_configuration env)
    · simp only [hf, Bool.false_eq_true, if_false]
      split
      · rfl
      · next ds hds =>
        rw [← processLoop_filter env sname h ds (initResults env)]
    · simp [hf]
  refine ⟨heq, ?_⟩
  rw [heq]
  unfold run_resultsWithout
  rw [finalizeResults_sources]
  unfold handlerTryWithout
  cases hf : pyFalsy (get_configuration env)
  · simp only [hf, Bool.false_eq_true, if_false]
    split
    · simp [initResults]
    · next ds hds =>
      have hnm : sname ∉ (processLoop env (ds.filter fun p => !(p.1 == sname)) (initResults env)).sources_processed := by
        apply processLoop_not_mem
        · intro p hp
          have hmem := List.of_mem_filter hp
          intro hps
          rw [hps] at hmem
          simp at hmem
        · simp [initResults]
      split
      · simpa using hnm
      · simpa using hnm
  · simp [hf, initResults]

theorem c1_witness :
    run_results sampleEnv = run_resultsWithout sampleEnv "marketing" ∧
    "marketing" ∉ (run_results sampleEnv).sources_processed :=
  c1_extraction_none_contributes_nothing sampleEnv "marketing"
    (fun _ => rfl)

/-- C1, counterexample to the claim as stated: under `sampleEnv` every
extraction (in particular `marketing`, configured in the default
configuration) returns `None`; the source is indeed skipped and contributes
zero records, but the returned `errors` list is empty — the source's name
never appears in `errors`, contradicting the claim. -/
theorem c1_counterexample :
    sampleEnv.extract "marketing" (Value.obj
      [("name", .str "FakeStore API"),
       ("url", .str "https://fakestoreapi.com/products"),
       ("default_limit", .num 10)]) = none ∧
    (run_results sampleEnv).errors = [] ∧
    (run_results sampleEnv).sources_processed = [] ∧
    (run_results sampleEnv).total_records = 0 :=
  ⟨rfl, rfl, rfl, rfl⟩

/-- An HTTP response as the extraction code sees it: status plus raw body
text (requests' `.json()` and urllib3's `json.loads(data.decode())` both
parse the body string). -/
structure HttpResp where
  status : Nat
  body : String

/-- The external world of `extract_data_safe`: whether `import requests`
succeeds, the outcome of each GET (an `.error` is a raised exception such
as a timeout), and `json.loads`. -/
structure HttpEnv where
  requestsAvailable : Bool
  requestsGet : String → List (String × Value) → Except String HttpResp
  urllib3Get : String → Except String HttpResp
  jsonLoads : String → Option Value

/-- Source lines 191-209: the URL and query parameters the requests path
selects.  The three known source names are hardcoded; anything else falls
through to `config['url']` with empty parameters (raising `KeyError` when
the key is absent). -/
def buildRequest (source : String) (config : Value) :
    Except String (String × List (String × Value)) :=
  if source = "marketing" then do
    let lim ← pyGet config "default_limit" (.num 10)
    pure ("https://fakestoreapi.com/products", [("limit", lim)])
  else if source = "sales" then do
    let lim ← pyGet config "default_limit" (.num 10)
    pure ("https://jsonplaceholder.typicode.com/posts", [("_limit", lim)])
  else if source = "crm" then do
    let lim ← pyGet config "default_limit" (.num 10)
    pure ("https://randomuser.me/api/", [("results", lim)])
  else
    match pySubscript config "url" with
    | .ok (.str u) => .ok (u, [])
    | .ok _ => .error "TypeError: request url is not a string"
    | .error e => .error e

/-- Source lines 273-282: the urllib3 fallback builds the same URLs with
the limit baked into the query string. -/
def buildUrlUrllib3 (source : String) (config : Value) :
    Except String String :=
  if source = "marketing" then do
    let lim ← pyGet config "default_limit" (.num 10)
    pure ("https://fakestoreapi.com/products?limit=" ++ pyStr lim)
  else if source = "sales" then do
    let lim ← pyGet config "default_limit" (.num 10)
    pure ("https://jsonplaceholder.typicode.com/posts?_limit=" ++ pyStr lim)
  else if source = "crm" then do
    let lim ← pyGet config "default_limit" (.num 10)
    pure ("https://randomuser.me/api/?results=" ++ pyStr lim)
  else
    match pySubscript config "url" with
    | .ok (.str u) => .ok u
    | .ok _ => .error "TypeError: request url is not a string"
    | .error e => .error e

/-- Source lines 242-255: response-shape normalization on the requests
path — dict with `results`, else `data`, else `products`, else wrap the
dict; a bare list is truncated to `config.get('default_limit', 10)`;
anything else is wrapped. -/
def normalizeRequests (data : Value) (config : Value) : Except String Value :=
  match data with
  | .obj kvs =>
    match lookupKey kvs "results" with
    | some v => .ok v
    | none =>
      match lookupKey kvs "data" with
      | some v => .ok v
      | none =>
        match lookupKey kvs "products" with
        | some v => .ok v
        | none => .ok (.list [.obj kvs])
  | .list xs => do
    let lim ← pyGet config "default_limit" (.num 10)
    let ys ← pySliceTo xs lim
    pure (.list ys)
  | other => .ok (.list [other])

/-- Source lines 310-320: response-shape normalization on the urllib3
fallback path — dict with `results`, else `data`, else wrap; there is no
`products` case on this path. -/
def normalizeUrllib3 (data : Value) (config : Value) : Except String Value :=
  match data with
  | .obj kvs =>
    match lookupKey kvs "results" with
    | some v => .ok v
    | none =>
      match lookupKey kvs "data" with
      | some v => .ok v
      | none => .ok (.list [.obj kvs])
  | .list xs => do
    let lim ← pyGet config "default_limit" (.num 10)
    let ys ← pySliceTo xs lim
    pure (.list ys)
  | other => .ok (.list [other])

/-- The requests-path `try` body (source lines 187-255): build the request,
perform the GET, check the status, parse and normalize.  An `.error` is an
exception that reaches the blanket handler of line 326; `.ok none` is an
explicit `return None` (non-200 status or JSON decode failure). -/
def extractRequests (henv : HttpEnv) (source : String) (config : Value) :
    Except String (Option Value) := do
  let up ← buildRequest source config
  match henv.requestsGet up.1 up.2 with
  | .error e => .error e
  | .ok resp =>
    if resp.status ≠ 200 then pure none
    else
      match henv.jsonLoads resp.body with
      | none => pure none
      | some data => do
        let v ← normalizeRequests data config
        pure (some v)

/-- The urllib3-path inner `try` body (source lines 261-320). -/
def extractUrllib3 (henv : HttpEnv) (source : String) (config : Value) :
    Except String (Option Value) := do
  let url ← buildUrlUrllib3 source config
  match henv.urllib3Get url with
  | .error e => .error e
  | .ok resp =>
    if resp.status ≠ 200 then pure none
    else
      match henv.jsonLoads resp.body with
      | none => pure none
      | some data => do
        let v ← normalizeUrllib3 data config
        pure (some v)

/-- Source lines 183-330, `extract_data_safe(source_name, config)`: the
requests path when the import succeeds, the urllib3 fallback otherwise.
Every exception of either body is caught — by `except Exception` at line
326 for the requests path and by the inner `except Exception` at line 322
for the fallback — and turned into `None`, so the function itself never
raises to its caller. -/
def extract_data_safe (henv : HttpEnv) (source : String) (config : Value) :
    Option Value :=
  if henv.requestsAvailable then
    match extractRequests henv source config with
    | .ok r => r
    | .error _ => none
  else
    match extractUrllib3 henv source config with
    | .ok r => r
    | .error _ => none

/-- A concrete HTTP environment: requests imports fine, but every GET
raises a timeout and nothing parses. -/
def httpSample : HttpEnv where
  requestsAvailable := true
  requestsGet := fun _ _ => .error "Timeout"
  urllib3Get := fun _ => .error "Timeout"
  jsonLoads := fun _ => none

/-- C4 (amended): for a source name other than the three known ones, the
primary path requests the generic `config['url']` with empty query
parameters; when the `url` key is absent the `KeyError` is caught by the
blanket exception handler, and `extract_data_safe` returns `None` to its
caller instead of propagating the error. -/
theorem c4_unknown_source_url (henv : HttpEnv) (source : String)
    (kvs : List (String × Value)) (hm : source ≠ "marketing")
    (hs : source ≠ "sales") (hc : source ≠ "crm") :
    (∀ u, lookupKey kvs "url" = some (.str u) →
      buildRequest source (.obj kvs) = .ok (u, [])) ∧
    (lookupKey kvs "url" = none → henv.requestsAvailable = true →
      extractRequests henv source (.obj kvs) = .error "KeyError: url" ∧
      extract_data_safe henv source (.obj kvs) = none) := by
  constructor
  · intro u hu
    simp [buildRequest, hm, hs, hc, pySubscript, hu]
  · intro hu hreq
    have hbr : buildRequest source (.obj kvs) = .error "KeyError: url" := by
      simp [buildRequest, hm, hs, hc, pySubscript, hu]
    constructor
    · simp [extractRequests, hbr]
    · simp [extract_data_safe, hreq, extractRequests, hbr]

theorem c4_witness :
    extractRequests httpSample "widgets" (Value.obj []) =
        .error "KeyError: url" ∧
      extract_data_safe httpSample "widgets" (Value.obj []) = none :=
  (c4_unknown_source_url httpSample "widgets" [] (by decide) (by decide)
    (by decide)).2 rfl rfl

/-- C4, counterexample to the claim as stated: with the `url` key absent
the claim says the key error is unhandled and propagates to the caller; in
fact the body raises `KeyError: url` but `extract_data_safe` catches it and
returns `None`. -/
theorem c4_counterexample :
    extract_data_safe httpSample "widgets" (Value.obj [("x", .num 1)])
      = none := rfl

/-- C5 (amended): on the requests path the normalization order is `results`
→ `data` → `products` → wrap-in-list, and on the urllib3 path it is
`results` → `data` → wrap-in-list with no `products` case (a dict carrying
only `products` is wrapped, not unwrapped); on both paths a bare list is
truncated to the configured `default_limit`. -/
theorem c5_normalization_order (config : Value) :
    (∀ kvs v, lookupKey kvs "results" = some v →
      normalizeRequests (.obj kvs) config = .ok v ∧
      normalizeUrllib3 (.obj kvs) config = .ok v) ∧
    (∀ kvs v, lookupKey kvs "results" = none →
      lookupKey kvs "data" = some v →
      normalizeRequests (.obj kvs) config = .ok v ∧
      normalizeUrllib3 (.obj kvs) config = .ok v) ∧
    (∀ kvs v, lookupKey kvs "results" = none →
      lookupKey kvs "data" = none → lookupKey kvs "products" = some v →
      normalizeRequests (.obj kvs) config = .ok v ∧
      normalizeUrllib3 (.obj kvs) config = .ok (.list [.obj kvs])) ∧
    (∀ kvs, lookupKey kvs "results" = none →
      lookupKey kvs "data" = none → lookupKey kvs "products" = none →
      normalizeRequests (.obj kvs) config = .ok (.list [.obj kvs]) ∧
      normalizeUrllib3 (.obj kvs) config = .ok (.list [.obj kvs])) ∧
    (∀ xs (n : Nat) kvs2, config = .obj kvs2 →
      lookupKey kvs2 "default_limit" = some (.num (n : ℚ)) →
      normalizeRequests (.list xs) config = .ok (.list (xs.take n)) ∧
      normalizeUrllib3 (.list xs) config = .ok (.list (xs.take n))) := by
  refine ⟨?_, ?_, ?_, ?_, ?_⟩
  · intro kvs v h
    exact ⟨by simp [normalizeRequests, h], by simp [normalizeUrllib3, h]⟩
  · intro kvs v h1 h2
    exact ⟨by simp [normalizeRequests, h1, h2],
      by simp [normalizeUrllib3, h1, h2]⟩
  · intro kvs v h1 h2 h3
    exact ⟨by simp [normalizeRequests, h1, h2, h3],
      by simp [normalizeUrllib3, h1, h2]⟩
  · intro kvs h1 h2 h3
    exact ⟨by simp [normalizeRequests, h1, h2, h3],
      by simp [normalizeUrllib3, h1, h2]⟩
  · intro xs n kvs2 hcfg hlim
    subst hcfg
    have hslice : pySliceTo xs (.num (n : ℚ)) = .ok (xs.take n) := by
      simp [pySliceTo, Rat.den_natCast, Rat.num_natCast]
    exact ⟨by simp [normalizeRequests, pyGet, hlim, hslice],
      by simp [normalizeUrllib3, pyGet, hlim, hslice]⟩

theorem c5_witness :
    normalizeRequests (.obj [("results", .list [.num 1])]) (.obj [])
        = .ok (.list [.num 1]) ∧
      normalizeUrllib3 (.obj [("results", .list [.num 1])]) (.obj [])
        = .ok (.list [.num 1]) :=
  (c5_normalization_order (.obj [])).1 [("results", .list [.num 1])]
    (.list [.num 1]) rfl

/-- C5, counterexample to the claim as stated: a parsed dict carrying only
a `products` key is unwrapped on the requests path but wrapped into a
one-element list on the urllib3 path, so the claimed order does not hold on
both HTTP client paths. -/
theorem c5_counterexample :
    normalizeRequests (.obj [("products", .list [.num 1])]) (.obj [])
        = .ok (.list [.num 1]) ∧
      normalizeUrllib3 (.obj [("products", .list [.num 1])]) (.obj [])
        = .ok (.list [.obj [("products", .list [.num 1])]]) ∧
      ¬ normalizeUrllib3 (.obj [("products", .list [.num 1])]) (.obj [])
        = .ok (.list [.num 1]) :=
  ⟨rfl, rfl, by
    intro h
    injection h with h2
    injection h2 with h3
    injection h3 with h4 h5
    exact Value.noConfusion h4⟩

end Pipeline
